import Mathlib

/-!
Verification of the HTTP contract of `src/backend/app.py`
(Automated-Deployment-AWS).

The repository's one source file builds a Flask application:

* `app = Flask(__name__)`
* `CORS(app)` — flask-cors with default options
* one route, `@app.route("/")`, whose view function `hello` returns the
  literal string `"Hello from the Python Backend API!"`
* `app.run(host='0.0.0.0', port=80)` under `if __name__ == '__main__'`.

The definitions below shallow-embed the request/response behaviour of that
application.  The routing table, the automatic `HEAD`/`OPTIONS` methods,
the default 404/405 error responses and the default `text/html`
content-type are the framework (Flask/Werkzeug) dispatch semantics as
configured by `app.py`; the `Access-Control-Allow-Origin` decoration is
the behaviour of `flask_cors.CORS` at its default options
(`origins='*'`, `send_wildcard=False`, `always_send=True`,
`supports_credentials=False`): the request's `Origin` header is echoed
when present, and the wildcard `*` is sent when it is absent.
-/

namespace AppPy

/-- An HTTP request as seen by the WSGI application: method, URL path,
query string, request headers (name/value pairs) and body. -/
structure Request where
  method : String
  path : String
  query : List (String × String)
  headers : List (String × String)
  body : String
deriving Repr, DecidableEq

/-- An HTTP response: status code, response headers and body. -/
structure Response where
  status : Nat
  headers : List (String × String)
  body : String
deriving Repr, DecidableEq

/-- First value of header `k` in a header list, if any. -/
def getHeader (hs : List (String × String)) (k : String) : Option String :=
  (hs.find? (fun p => p.1 == k)).map Prod.snd

/-- The view function `hello` of `src/backend/app.py`: it takes no
arguments, reads nothing, and returns the greeting string. -/
def hello : String := "Hello from the Python Backend API!"

/-- Methods Flask registers for the rule `"/"`: `@app.route("/")` with no
`methods=` argument defaults to `GET`, and Flask adds `HEAD` and the
automatic `OPTIONS`. -/
def rootMethods : List String := ["GET", "HEAD", "OPTIONS"]

/-- Werkzeug's default 404 body. -/
def notFoundBody : String :=
  "<!doctype html>\n<html lang=en>\n<title>404 Not Found</title>\n<h1>Not Found</h1>\n<p>The requested URL was not found on the server. If you entered the URL manually please check your spelling and try again.</p>\n"

/-- Werkzeug's default 405 body. -/
def methodNotAllowedBody : String :=
  "<!doctype html>\n<html lang=en>\n<title>405 Method Not Allowed</title>\n<h1>Method Not Allowed</h1>\n<p>The method is not allowed for the requested URL.</p>\n"

/-- Flask's default content-type for a view function returning a bare
`str`, and for its default error pages. -/
def htmlContentType : String := "text/html; charset=utf-8"

/-- Flask dispatch for the application of `src/backend/app.py`, before
after-request functions run: the URL map holds the single rule `"/"`
(methods `rootMethods`, view `hello`); any other path gets the default
404, a method outside `rootMethods` gets the default 405, `OPTIONS` gets
Flask's automatic empty 200 response with an `Allow` header, and
`GET`/`HEAD` invoke `hello`, whose string return is wrapped in a 200
`text/html` response. -/
def dispatch (req : Request) : Response :=
  if req.path = "/" then
    if req.method = "GET" ∨ req.method = "HEAD" then
      { status := 200
        headers := [("Content-Type", htmlContentType)]
        body := hello }
    else if req.method = "OPTIONS" then
      { status := 200
        headers := [("Content-Type", htmlContentType), ("Allow", "GET, HEAD, OPTIONS")]
        body := "" }
    else
      { status := 405
        headers := [("Content-Type", htmlContentType), ("Allow", "GET, HEAD, OPTIONS")]
        body := methodNotAllowedBody }
  else
    { status := 404
      headers := [("Content-Type", htmlContentType)]
      body := notFoundBody }

/-- The after-request function installed by `CORS(app)` (flask-cors,
default options, applied to every path since the default resource pattern
matches all paths): when the request carries an `Origin` header its value
is echoed into `Access-Control-Allow-Origin` (with `Vary: Origin`),
otherwise the wildcard `*` is sent (`always_send` default). -/
def corsAfterRequest (req : Request) (resp : Response) : Response :=
  match getHeader req.headers "Origin" with
  | some origin =>
      { resp with
        headers := resp.headers ++ [("Access-Control-Allow-Origin", origin), ("Vary", "Origin")] }
  | none =>
      { resp with
        headers := resp.headers ++ [("Access-Control-Allow-Origin", "*")] }

/-- The full request/response pipeline of the application: Flask dispatch
followed by the CORS after-request decoration. -/
def handleRequest (req : Request) : Response :=
  corsAfterRequest req (dispatch req)

/-- `app.py` defines no mutable state (no globals written by the view, no
storage): serving a sequence of requests is just handling each in turn. -/
def serve : List Request → List Response
  | [] => []
  | r :: rs => handleRequest r :: serve rs

/-- The arguments of the `app.run(host='0.0.0.0', port=80)` call. -/
structure RunConfig where
  host : String
  port : Nat
deriving Repr, DecidableEq

/-- The `if __name__ == '__main__'` block of `src/backend/app.py`, as a
function of the process environment and command line: the script reads
neither (`os.environ` and `sys.argv` are never consulted), and calls
`app.run` with the literal host `'0.0.0.0'` and port `80`. -/
def mainRunConfig (_env : List (String × String)) (_argv : List String) : RunConfig :=
  { host := "0.0.0.0", port := 80 }

/-- A reason the server socket cannot be bound at startup. -/
inductive BindError where
  | portInUse
  | insufficientPrivilege
deriving Repr, DecidableEq

/-- Modelled from the spec: the socket-binding step of `app.run`
(performed inside Flask/Werkzeug, not in `src/`).  The spec names one
failure mode — a fatal startup error when the configured port cannot be
bound — that terminates the process with a non-zero exit status and a
diagnostic message. -/
inductive StartResult where
  | running (cfg : RunConfig)
  | failed (exitCode : Nat) (diagnostic : String)
deriving Repr, DecidableEq

/-- Modelled from the spec: the diagnostic the interpreter prints when
`app.run` cannot bind the port (the propagated `OSError`). -/
def bindErrorMessage : BindError → String
  | .portInUse => "OSError: [Errno 98] Address already in use"
  | .insufficientPrivilege => "PermissionError: [Errno 13] Permission denied"

/-- Modelled from the spec: starting the server with the configuration of
`app.py`.  A successful bind leaves the server running; a failed bind
terminates the process with exit status 1 and the propagated error text. -/
def startServer : Option BindError → StartResult
  | none => .running (mainRunConfig [] [])
  | some e => .failed 1 (bindErrorMessage e)

/-! ## General lemmas about the embedding -/

/-- The CORS after-request function never changes the status code. -/
theorem corsAfterRequest_status (req : Request) (resp : Response) :
    (corsAfterRequest req resp).status = resp.status := by
  unfold corsAfterRequest
  cases getHeader req.headers "Origin" <;> rfl

/-- The CORS after-request function never changes the body. -/
theorem corsAfterRequest_body (req : Request) (resp : Response) :
    (corsAfterRequest req resp).body = resp.body := by
  unfold corsAfterRequest
  cases getHeader req.headers "Origin" <;> rfl

/-- The CORS after-request function only appends headers. -/
theorem corsAfterRequest_headers (req : Request) (resp : Response) :
    ∃ extra, (corsAfterRequest req resp).headers = resp.headers ++ extra := by
  unfold corsAfterRequest
  cases getHeader req.headers "Origin" with
  | none => exact ⟨_, rfl⟩
  | some o => exact ⟨_, rfl⟩

/-- The pipeline's status is the dispatch status. -/
theorem handleRequest_status (req : Request) :
    (handleRequest req).status = (dispatch req).status :=
  corsAfterRequest_status req (dispatch req)

/-- The pipeline's body is the dispatch body. -/
theorem handleRequest_body (req : Request) :
    (handleRequest req).body = (dispatch req).body :=
  corsAfterRequest_body req (dispatch req)

/-- Header lookup distributes over header-list append. -/
theorem getHeader_append (hs ex : List (String × String)) (k : String) :
    getHeader (hs ++ ex) k = ((getHeader hs k).or (getHeader ex k)) := by
  unfold getHeader
  rw [List.find?_append]
  cases hs.find? fun p => p.1 == k <;> simp

/-- No response produced by Flask dispatch already carries an
`Access-Control-Allow-Origin` header. -/
theorem dispatch_no_acao (req : Request) :
    getHeader (dispatch req).headers "Access-Control-Allow-Origin" = none := by
  unfold dispatch
  split
  · split
    · rfl
    · split
      · rfl
      · rfl
  · rfl

/-- Serving a concatenation of request sequences serves each part. -/
theorem serve_append (l1 l2 : List Request) :
    serve (l1 ++ l2) = serve l1 ++ serve l2 := by
  induction l1 with
  | nil => rfl
  | cons r t ih => simp [serve, ih]

/-! ## The claims -/

/-- Claim C1: every GET request to path `"/"`, whatever its query string,
headers and body, gets status 200 and the exact body
`"Hello from the Python Backend API!"`. -/
theorem get_root_ok (q hs : List (String × String)) (b : String) :
    (handleRequest { method := "GET", path := "/", query := q, headers := hs, body := b }).status = 200 ∧
    (handleRequest { method := "GET", path := "/", query := q, headers := hs, body := b }).body = "Hello from the Python Backend API!" := by
  refine ⟨?_, ?_⟩
  · rw [handleRequest_status]
    rfl
  · rw [handleRequest_body]
    rfl

/-- Claim C2: every response the application produces — any method, any
path, including OPTIONS preflights and the default 404/405 pages — carries
an `Access-Control-Allow-Origin` header permitting the requesting origin:
the wildcard `*` when the request names no origin, and (flask-cors echo
behaviour at default options) the request's own origin otherwise. -/
theorem every_response_allows_origin (req : Request) :
    ∃ v, getHeader (handleRequest req).headers "Access-Control-Allow-Origin" = some v ∧
      ((getHeader req.headers "Origin" = none ∧ v = "*") ∨
        getHeader req.headers "Origin" = some v) := by
  unfold handleRequest corsAfterRequest
  cases h : getHeader req.headers "Origin" with
  | none =>
      refine ⟨"*", ?_, Or.inl ⟨rfl, rfl⟩⟩
      show getHeader ((dispatch req).headers ++ _) _ = _
      rw [getHeader_append, dispatch_no_acao]
      rfl
  | some o =>
      refine ⟨o, ?_, Or.inr rfl⟩
      show getHeader ((dispatch req).headers ++ _) _ = _
      rw [getHeader_append, dispatch_no_acao]
      rfl

/-- Claim C3 as stated is false: it is not the case that every non-GET
request to `"/"` gets a non-200 status — the automatic `OPTIONS` (a
non-GET method) gets 200. -/
theorem nonget_root_non200_false :
    ¬ (∀ req : Request, req.path = "/" → req.method ≠ "GET" →
        (handleRequest req).status ≠ 200) := by
  intro h
  exact h { method := "OPTIONS", path := "/", query := [], headers := [], body := "" }
    rfl (by decide) rfl

/-- Claim C3 amended: a request to `"/"` whose method is outside the
registered set `GET`/`HEAD`/`OPTIONS` gets the framework's 405. -/
theorem root_unregistered_method_405 (req : Request) (hpath : req.path = "/")
    (hm : ¬ req.method ∈ rootMethods) :
    (handleRequest req).status = 405 ∧ (handleRequest req).status ≠ 200 := by
  simp only [rootMethods, List.mem_cons, List.mem_singleton, not_or] at hm
  have hd : (dispatch req).status = 405 := by
    unfold dispatch
    simp [hpath, hm.1, hm.2.1, hm.2.2.1]
  rw [handleRequest_status, hd]
  exact ⟨rfl, by decide⟩

/-- Witness for the amended C3 at a concrete POST request. -/
theorem root_unregistered_method_405_witness :
    (handleRequest { method := "POST", path := "/", query := [], headers := [], body := "" }).status = 405 ∧
    (handleRequest { method := "POST", path := "/", query := [], headers := [], body := "" }).status ≠ 200 :=
  root_unregistered_method_405
    { method := "POST", path := "/", query := [], headers := [], body := "" }
    rfl (by decide)

/-- Claim C4: a request to any path other than `"/"`, with any method,
gets the framework's default 404 — in particular a non-200 status. -/
theorem other_path_404 (req : Request) (hpath : req.path ≠ "/") :
    (handleRequest req).status = 404 ∧ (handleRequest req).status ≠ 200 := by
  have hd : (dispatch req).status = 404 := by
    unfold dispatch
    simp [hpath]
  rw [handleRequest_status, hd]
  exact ⟨rfl, by decide⟩

/-- Witness for C4 at a concrete request to `"/health"`. -/
theorem other_path_404_witness :
    (handleRequest { method := "GET", path := "/health", query := [], headers := [], body := "" }).status = 404 ∧
    (handleRequest { method := "GET", path := "/health", query := [], headers := [], body := "" }).status ≠ 200 :=
  other_path_404
    { method := "GET", path := "/health", query := [], headers := [], body := "" }
    (by decide)

/-- Claim C5: the `hello` handler consults no part of the request — a
two-run noninterference statement over the handler: two GET requests to
`"/"` differing arbitrarily in query string, headers and body get the
identical handler-level (pre-CORS-decoration) response, and in particular
identical status and body in the full pipeline. -/
theorem get_root_noninterference (q1 hs1 : List (String × String)) (b1 : String)
    (q2 hs2 : List (String × String)) (b2 : String) :
    dispatch { method := "GET", path := "/", query := q1, headers := hs1, body := b1 } =
      dispatch { method := "GET", path := "/", query := q2, headers := hs2, body := b2 } ∧
    (handleRequest { method := "GET", path := "/", query := q1, headers := hs1, body := b1 }).status =
      (handleRequest { method := "GET", path := "/", query := q2, headers := hs2, body := b2 }).status ∧
    (handleRequest { method := "GET", path := "/", query := q1, headers := hs1, body := b1 }).body =
      (handleRequest { method := "GET", path := "/", query := q2, headers := hs2, body := b2 }).body := by
  refine ⟨rfl, ?_, ?_⟩
  · rw [handleRequest_status, handleRequest_status]
    rfl
  · rw [handleRequest_body, handleRequest_body]
    rfl

/-- Claim C6: the server is stateless and requests are idempotent — the
response to a request is `handleRequest` of that request alone, whatever
sequence of requests preceded it. -/
theorem response_independent_of_history (pre : List Request) (req : Request) :
    (serve (pre ++ [req])).getLast? = some (handleRequest req) := by
  rw [serve_append]
  exact List.getLast?_concat _

/-- Claim C7: the startup block binds host `0.0.0.0` and port `80`,
whatever the process environment and command line hold — the script
consults neither. -/
theorem run_binding_constant (env : List (String × String)) (argv : List String) :
    mainRunConfig env argv = { host := "0.0.0.0", port := 80 } := rfl

/-- Claim C8 (spec-modelled, the binding step lives in Flask/Werkzeug,
not in `src/`): when the configured port cannot be bound at startup, the
process terminates with a non-zero exit status and a non-empty diagnostic
message. -/
theorem bind_failure_fatal (e : BindError) :
    ∃ c m, startServer (some e) = .failed c m ∧ c ≠ 0 ∧ m ≠ "" := by
  refine ⟨1, bindErrorMessage e, rfl, by decide, ?_⟩
  cases e <;> decide

/-- Claim C9: because `@app.route("/")` names no methods list, the
framework auto-registers `HEAD` and `OPTIONS` alongside `GET`: `HEAD` and
`OPTIONS` requests to `"/"` get 200, and exactly the methods outside
`rootMethods` get the 405. -/
theorem auto_head_options_registered (q hs : List (String × String)) (b m : String)
    (hm : ¬ m ∈ rootMethods) :
    (handleRequest { method := "HEAD", path := "/", query := q, headers := hs, body := b }).status = 200 ∧
    (handleRequest { method := "OPTIONS", path := "/", query := q, headers := hs, body := b }).status = 200 ∧
    (handleRequest { method := m, path := "/", query := q, headers := hs, body := b }).status = 405 := by
  simp only [rootMethods, List.mem_cons, List.mem_singleton, not_or] at hm
  refine ⟨?_, ?_, ?_⟩
  · rw [handleRequest_status]
    rfl
  · rw [handleRequest_status]
    rfl
  · rw [handleRequest_status]
    unfold dispatch
    simp [hm.1, hm.2.1, hm.2.2.1]

/-- Witness for C9 at concrete requests (the unregistered method POST). -/
theorem auto_head_options_registered_witness :
    (handleRequest { method := "HEAD", path := "/", query := [], headers := [], body := "" }).status = 200 ∧
    (handleRequest { method := "OPTIONS", path := "/", query := [], headers := [], body := "" }).status = 200 ∧
    (handleRequest { method := "POST", path := "/", query := [], headers := [], body := "" }).status = 405 :=
  auto_head_options_registered [] [] "" "POST" (by decide)

/-- Claim C10: the GET `"/"` response's content-type is the framework
default for a bare string return, `text/html; charset=utf-8`, not
`text/plain`. -/
theorem get_root_content_type (q hs : List (String × String)) (b : String) :
    getHeader (handleRequest { method := "GET", path := "/", query := q, headers := hs, body := b }).headers "Content-Type" = some htmlContentType ∧
    htmlContentType = "text/html; charset=utf-8" ∧
    htmlContentType ≠ "text/plain" := by
  refine ⟨?_, rfl, by decide⟩
  obtain ⟨extra, he⟩ := corsAfterRequest_headers
    { method := "GET", path := "/", query := q, headers := hs, body := b }
    (dispatch { method := "GET", path := "/", query := q, headers := hs, body := b })
  show getHeader (corsAfterRequest _ _).headers _ = _
  rw [he, getHeader_append]
  rfl

end AppPy

